import Mathlib

/-!
Verification development for the TM2/AYUSH healthcare ingestion repository.

The development shallowly embeds the translation service
(`src/app/services/ayush_translation.py`), the EMR data models
(`src/app/models/emr_models.py`), and — where the repository's cleaning and
EMR-graph-building code is not among the provided sources — a model of the
cleaning and conversion pipeline taken from the specification.

Modelling conventions:
  * Python `dict`s are embedded as insertion-ordered association lists
    (`List (String × String)`); dict-literal duplicate keys are collapsed to a
    single entry (the first position with the last value, exactly Python's
    semantics; in this repository all duplicated keys carry identical values).
  * Python `str.strip()` is `pyStrip` (trims ASCII whitespace, which is what
    occurs in the data); `str.lower()` is `pyLower` (ASCII case folding: the
    Devanagari, Tamil and Arabic scripts used by the tables are caseless, so
    this coincides with Python's behaviour on all strings involved).
  * Python's substring test `a in b` is `pyIn a b`, including the fact that
    the empty string is a substring of every string.
  * Calls to `logger.info` are embedded as emitted `LogEvent` values, the
    observable trace of a call; the logging subsystem itself is an external
    collaborator.
  * Mutation of the translator object is embedded by explicit state passing:
    every method returns its result together with the post-state.
-/

/-- ASCII case folding of one character, the restriction of Python's
`str.lower` to the scripts occurring in this repository's tables. -/
def lowerChar (c : Char) : Char :=
  if 65 ≤ c.toNat ∧ c.toNat ≤ 90 then Char.ofNat (c.toNat + 32) else c

/-- Embedding of Python `str.lower()` for the strings of this repository. -/
def pyLower (s : String) : String :=
  String.mk (s.data.map lowerChar)

/-- The whitespace characters removed by Python's `str.strip()` (restricted
to the ASCII whitespace occurring in the data). -/
def isPySpace (c : Char) : Bool :=
  c == ' ' || c == '\t' || c == '\n' || c == '\r' || c == Char.ofNat 11 || c == Char.ofNat 12

/-- Embedding of Python `str.strip()`: removes leading and trailing
whitespace. -/
def pyStrip (s : String) : String :=
  String.mk (((s.data.dropWhile isPySpace).reverse.dropWhile isPySpace).reverse)

/-- Whether the first list is an initial segment of the second. -/
def startsWithList : List Char → List Char → Bool
  | [], _ => true
  | _ :: _, [] => false
  | a :: as, b :: bs => a == b && startsWithList as bs

/-- Whether the first list occurs as a contiguous sublist of the second. -/
def containsList : List Char → List Char → Bool
  | needle, [] => startsWithList needle []
  | needle, c :: rest => startsWithList needle (c :: rest) || containsList needle rest

/-- Embedding of Python's substring test: `pyIn a b` is Python's `a in b`.
In particular the empty string is contained in every string. -/
def pyIn (needle hay : String) : Bool :=
  containsList needle.data hay.data

/-- Exact-key lookup in an insertion-ordered association list; embeds
Python's `key in dict` / `dict[key]` pair for string dicts. -/
def lookupExact : List (String × String) → String → Option String
  | [], _ => none
  | kv :: rest, s => if kv.1 = s then some kv.2 else lookupExact rest s

/-- First value whose key equals the query up to `pyLower`, in insertion
order; embeds the `for key, value in mapping.items(): if key.lower() ==
cleaned.lower()` loop of the translator. -/
def lookupCI : List (String × String) → String → Option String
  | [], _ => none
  | kv :: rest, s => if pyLower kv.1 = pyLower s then some kv.2 else lookupCI rest s

/-- First entry matching the substring tier, in insertion order; embeds the
`if key.lower() in cleaned.lower() or cleaned.lower() in key.lower()` loop of
`translate_condition`. Returns the matched entry so the logged event can
name it. -/
def lookupFuzzy : List (String × String) → String → Option (String × String)
  | [], _ => none
  | kv :: rest, s =>
    if pyIn (pyLower kv.1) (pyLower s) || pyIn (pyLower s) (pyLower kv.1) then some kv
    else lookupFuzzy rest s

/-- Embedding of Python dict assignment `d[k] = v`: an existing key keeps its
position and gets the new value; a new key is appended at the end. -/
def dictInsert : List (String × String) → String → String → List (String × String)
  | [], k, v => [(k, v)]
  | kv :: rest, k, v =>
    if kv.1 = k then (k, v) :: rest else kv :: dictInsert rest k v

/-- Observable events emitted through `logger.info` by the translation
service, one constructor per call site in the source. -/
inductive LogEvent where
  | fuzzyMatch (original matched translated : String)
  | noTranslation (original : String)
  | addedConditionMapping (native english : String)
  | addedSystemTypeMapping (native english : String)
  | addedSeverityMapping (native english : String)
deriving DecidableEq

/-- Body of `AYUSHTranslator.translate_condition` over an explicit mapping
table, paired with the events it logs: empty guard, exact match,
case-insensitive match, substring match in either direction (logged), and
fallback to the original input (logged). -/
def translateConditionT (m : List (String × String)) (condition_name : String) :
    String × List LogEvent :=
  if condition_name = "" then ("", [])
  else
    let cleaned := pyStrip condition_name
    match lookupExact m cleaned with
    | some v => (v, [])
    | none =>
      match lookupCI m cleaned with
      | some v => (v, [])
      | none =>
        match lookupFuzzy m cleaned with
        | some kv => (kv.2, [LogEvent.fuzzyMatch condition_name kv.1 kv.2])
        | none => (condition_name, [LogEvent.noTranslation condition_name])

/-- Body of `AYUSHTranslator.translate_system_type` over an explicit mapping
table: empty guard, exact match, case-insensitive match, fallback to the
original input. The source contains no logging call here, so the event
trace is empty. -/
def translateSystemTypeT (m : List (String × String)) (system_type : String) :
    String × List LogEvent :=
  if system_type = "" then ("", [])
  else
    let cleaned := pyStrip system_type
    match lookupExact m cleaned with
    | some v => (v, [])
    | none =>
      match lookupCI m cleaned with
      | some v => (v, [])
      | none => (system_type, [])

/-- Body of `AYUSHTranslator.translate_severity` over an explicit mapping
table: empty guard, exact match, case-insensitive match, fallback to the
original input. The source contains no logging call here, so the event
trace is empty. -/
def translateSeverityT (m : List (String × String)) (severity : String) :
    String × List LogEvent :=
  if severity = "" then ("", [])
  else
    let cleaned := pyStrip severity
    match lookupExact m cleaned with
    | some v => (v, [])
    | none =>
      match lookupCI m cleaned with
      | some v => (v, [])
      | none => (severity, [])

/-- The translator's mutable state: the three mapping tables initialised in
`AYUSHTranslator.__init__`. -/
structure AYUSHTranslator where
  condition_mapping : List (String × String)
  system_type_mapping : List (String × String)
  severity_mapping : List (String × String)
deriving DecidableEq

/-- Result of one translator method call: return value, logged events, and
the translator state after the call. -/
structure TransOut where
  ret : String
  events : List LogEvent
  state : AYUSHTranslator
deriving DecidableEq

/-- Method `AYUSHTranslator.translate_condition`. Its body reads
`self.condition_mapping` and assigns no attribute, so the post-state is the
receiver. -/
def AYUSHTranslator.translate_condition (t : AYUSHTranslator) (condition_name : String) :
    TransOut :=
  let p := translateConditionT t.condition_mapping condition_name
  { ret := p.1, events := p.2, state := t }

/-- Method `AYUSHTranslator.translate_system_type`. Its body reads
`self.system_type_mapping` and assigns no attribute, so the post-state is
the receiver. -/
def AYUSHTranslator.translate_system_type (t : AYUSHTranslator) (system_type : String) :
    TransOut :=
  let p := translateSystemTypeT t.system_type_mapping system_type
  { ret := p.1, events := p.2, state := t }

/-- Method `AYUSHTranslator.translate_severity`. Its body reads
`self.severity_mapping` and assigns no attribute, so the post-state is the
receiver. -/
def AYUSHTranslator.translate_severity (t : AYUSHTranslator) (severity : String) :
    TransOut :=
  let p := translateSeverityT t.severity_mapping severity
  { ret := p.1, events := p.2, state := t }

/-- Method `AYUSHTranslator.add_condition_mapping`: dict assignment into
`self.condition_mapping`, plus the logged registration event. -/
def AYUSHTranslator.add_condition_mapping (t : AYUSHTranslator)
    (native_term english_term : String) : AYUSHTranslator × List LogEvent :=
  ({ t with condition_mapping := dictInsert t.condition_mapping native_term english_term },
   [LogEvent.addedConditionMapping native_term english_term])

/-- Method `AYUSHTranslator.add_system_type_mapping`: dict assignment into
`self.system_type_mapping`, plus the logged registration event. -/
def AYUSHTranslator.add_system_type_mapping (t : AYUSHTranslator)
    (native_term english_term : String) : AYUSHTranslator × List LogEvent :=
  ({ t with system_type_mapping := dictInsert t.system_type_mapping native_term english_term },
   [LogEvent.addedSystemTypeMapping native_term english_term])

/-- Method `AYUSHTranslator.add_severity_mapping`: dict assignment into
`self.severity_mapping`, plus the logged registration event. -/
def AYUSHTranslator.add_severity_mapping (t : AYUSHTranslator)
    (native_term english_term : String) : AYUSHTranslator × List LogEvent :=
  ({ t with severity_mapping := dictInsert t.severity_mapping native_term english_term },
   [LogEvent.addedSeverityMapping native_term english_term])

/-- The `condition_mapping` dict literal of `AYUSHTranslator.__init__`, in
source order. The literal repeats two keys in its Homeopathy section with
the same values they already carry; following Python dict semantics each
key appears once, at its first position. -/
def conditionMapping : List (String × String) := [
  ("शिरःशूल", "Headache"),
  ("शीर्षवेदना", "Head Pain"),
  ("अजीर्ण", "Indigestion"),
  ("अग्निमांद्य", "Digestive Weakness"),
  ("ज्वर", "Fever"),
  ("सन्धिवात", "Arthritis"),
  ("अस्थिसंधि वेदना", "Bone and Joint Pain"),
  ("संधिशूल", "Joint Pain"),
  ("कटिशूल", "Back Pain"),
  ("कटिवेदना", "Lower Back Pain"),
  ("अर्श", "Hemorrhoids"),
  ("पाइल्स", "Piles"),
  ("कास", "Cough"),
  ("श्वास", "Asthma"),
  ("श्वसन रोग", "Respiratory Disorder"),
  ("नासावेग", "Allergic Rhinitis"),
  ("नाक बहना", "Runny Nose"),
  ("अतिसार", "Diarrhea"),
  ("गुदव्रण", "Anal Fissure"),
  ("मुंहासे", "Acne"),
  ("त्वचा रोग", "Skin Disease"),
  ("खाज", "Itching"),
  ("दाद", "Ringworm"),
  ("एक्जिमा", "Eczema"),
  ("बवासीर", "Hemorrhoids"),
  ("अनिद्रा", "Insomnia"),
  ("निद्रानाश", "Sleep Disorder"),
  ("मानसिक तनाव", "Mental Stress"),
  ("चिंता", "Anxiety"),
  ("अवसाद", "Depression"),
  ("स्मृति हानि", "Memory Loss"),
  ("मधुमेह", "Diabetes"),
  ("प्रमेह", "Diabetes Mellitus"),
  ("रक्तचाप", "Hypertension"),
  ("उच्च रक्तचाप", "High Blood Pressure"),
  ("हृदय रोग", "Heart Disease"),
  ("हृदयाघात", "Heart Attack"),
  ("स्त्री रोग", "Gynecological Disorder"),
  ("मासिक धर्म विकार", "Menstrual Disorder"),
  ("बांझपन", "Infertility"),
  ("गर्भधारण समस्या", "Pregnancy Complications"),
  ("बाल रोग", "Pediatric Disorder"),
  ("बच्चों की बीमारी", "Childhood Illness"),
  ("वृद्धावस्था रोग", "Geriatric Disorder"),
  ("बुढ़ापे की बीमारी", "Age-related Disease"),
  ("வலி", "Pain"),
  ("காய்ச்சல்", "Fever"),
  ("இருமல்", "Cough"),
  ("மூச்சுத்திணறல்", "Breathing Difficulty"),
  ("வயிற்றுப்போக்கு", "Diarrhea"),
  ("கல்லீரல் நோய்", "Liver Disease"),
  ("சிறுநீர்ப்பை நோய்", "Bladder Disease"),
  ("நீரிழிவு நோய்", "Diabetes"),
  ("سرد و بلغم", "Cold and Phlegm"),
  ("حرارت", "Heat/Fever"),
  ("سعال", "Cough"),
  ("زکام", "Cold"),
  ("اسہال", "Diarrhea"),
  ("قئ", "Nausea"),
  ("دموی", "Bloody"),
  ("سفید", "White Discharge"),
  ("सिर दर्द", "Headache"),
  ("पेट दर्द", "Abdominal Pain"),
  ("बुखार", "Fever"),
  ("खांसी", "Cough"),
  ("दस्त", "Diarrhea"),
  ("एलर्जी", "Allergy"),
  ("माइग्रेन", "Migraine"),
  ("टी बी", "Tuberculosis"),
  ("कैंसर", "Cancer"),
  ("एड्स", "AIDS"),
  ("मलेरिया", "Malaria"),
  ("डेंगू", "Dengue"),
  ("चिकनगुनिया", "Chikungunya"),
  ("कोविड", "COVID-19"),
  ("कोरोना", "Coronavirus"),
  ("headache", "Headache"),
  ("fever", "Fever"),
  ("cough", "Cough"),
  ("cold", "Common Cold"),
  ("diarrhea", "Diarrhea"),
  ("indigestion", "Indigestion"),
  ("arthritis", "Arthritis"),
  ("asthma", "Asthma"),
  ("diabetes", "Diabetes"),
  ("hypertension", "Hypertension"),
  ("anxiety", "Anxiety"),
  ("depression", "Depression"),
  ("insomnia", "Insomnia"),
  ("acne", "Acne"),
  ("eczema", "Eczema"),
  ("migraine", "Migraine")]

/-- The `system_type_mapping` dict literal of `AYUSHTranslator.__init__`. -/
def systemTypeMapping : List (String × String) := [
  ("आयुर्वेद", "Ayurveda"),
  ("सिद्ध", "Siddha"),
  ("यूनानी", "Unani"),
  ("होम्योपैथी", "Homeopathy"),
  ("ஆயுர்வேதம்", "Ayurveda"),
  ("சித்த மருத்துவம்", "Siddha"),
  ("யூனானி மருத்துவம்", "Unani"),
  ("ஹோமியோபதி", "Homeopathy")]

/-- The `severity_mapping` dict literal of `AYUSHTranslator.__init__`. -/
def severityMapping : List (String × String) := [
  ("मृदु", "Mild"),
  ("मध्यम", "Moderate"),
  ("तीव्र", "Severe"),
  ("गंभीर", "Critical"),
  ("हल्का", "Mild"),
  ("भारी", "Severe"),
  ("कुपोषण", "Malnutrition"),
  ("जटिल", "Complicated")]

/-- The module-level `translator = AYUSHTranslator()` instance: the state
produced by `__init__`. -/
def translator : AYUSHTranslator :=
  { condition_mapping := conditionMapping,
    system_type_mapping := systemTypeMapping,
    severity_mapping := severityMapping }

/-- A calendar date, the embedding of the parsed `datetime` values carried
by the EMR models (only the date part is exercised by this repository's
pipeline). -/
structure Date where
  year : Nat
  month : Nat
  day : Nat
deriving DecidableEq

/-- EMR Patient record model (`EMRPatient` in `emr_models.py`). Optional
demographic fields default to `None`; the wall-clock `created_at` timestamp
is not embedded. -/
structure EMRPatient where
  patient_id : String
  given_name : Option String := none
  family_name : Option String := none
  gender : Option String := none
  birth_date : Option Date := none
  address : Option String := none
  phone_number : Option String := none
deriving DecidableEq

/-- EMR Condition record model (`EMRCondition` in `emr_models.py`), with the
pydantic field defaults `icd_code = None`, `status = "active"`,
`notes = None`; the wall-clock `created_at` timestamp is not embedded. -/
structure EMRCondition where
  condition_id : String
  patient_id : String
  condition_name : String
  icd_code : Option String := none
  tm2_code : String
  system_type : String
  severity : String
  diagnosis_date : Date
  practitioner_id : String
  status : String := "active"
  notes : Option String := none
deriving DecidableEq

/-- EMR Encounter record model (`EMREncounter` in `emr_models.py`), with the
pydantic defaults `encounter_type = "traditional_medicine_consultation"`,
`location = None`, empty condition list; the `Any`-valued observations list
and the wall-clock `created_at` timestamp are not embedded. -/
structure EMREncounter where
  encounter_id : String
  patient_id : String
  encounter_type : String := "traditional_medicine_consultation"
  encounter_date : Date
  practitioner_id : String
  location : Option String := none
  conditions : List String := []
deriving DecidableEq

/-- Modelled from the spec: one raw input row (§3 RawRecord) with the seven
TM2 fields as raw strings. The repository's Record Validator and Cleaner is
not among the provided source files; the pipeline below follows §4.2-§4.3
of the specification. -/
structure RawRecord where
  patient_id : String
  tm2_code : String
  condition_name : String
  system_type : String
  severity : String
  diagnosis_date : String
  practitioner_id : String
deriving DecidableEq

/-- Modelled from the spec: a RawRecord after validation, deduplication and
field normalization (§3 CleanedRecord): trimmed strings, parsed date,
translated vocabulary terms. -/
structure CleanedRecord where
  patient_id : String
  tm2_code : String
  condition_name : String
  system_type : String
  severity : String
  diagnosis_date : Date
  practitioner_id : String
deriving DecidableEq

/-- Modelled from the spec: the cleaning-stage counters that the claims
exercise (`invalid_records_removed`, `duplicates_removed`). -/
structure CleaningStats where
  total_records : Nat
  invalid_records_removed : Nat
  duplicates_removed : Nat
deriving DecidableEq

/-- Interprets a list of digit characters as a number, most significant
first. -/
def digitsToNat (l : List Char) : Nat :=
  l.foldl (fun a c => a * 10 + (c.toNat - 48)) 0

/-- Whether every character of the list is an ASCII digit. -/
def allDigits (l : List Char) : Bool :=
  l.all (fun c => 48 ≤ c.toNat && c.toNat ≤ 57)

/-- Splits a character list at every dash. -/
def splitDash : List Char → List (List Char)
  | [] => [[]]
  | c :: rest =>
    let r := splitDash rest
    if c = '-' then [] :: r
    else
      match r with
      | [] => [[c]]
      | h :: t => (c :: h) :: t

/-- Modelled from the spec: parsing of `diagnosis_date` into a calendar date
(§4.2 requires `diagnosis_date` to be "parseable into a calendar date"; the
end-to-end scenario uses the ISO form `2024-01-15`). Accepts
`YYYY-MM-DD` with numeric components and in-range month and day. -/
def parse_date (s : String) : Option Date :=
  match splitDash (pyStrip s).data with
  | [y, m, d] =>
    if allDigits y && allDigits m && allDigits d &&
        !y.isEmpty && !m.isEmpty && !d.isEmpty then
      let mo := digitsToNat m
      let da := digitsToNat d
      if 1 ≤ mo ∧ mo ≤ 12 ∧ 1 ≤ da ∧ da ≤ 31 then
        some { year := digitsToNat y, month := mo, day := da }
      else none
    else none
  | _ => none

/-- Modelled from the spec: structural validation of one row (§4.2 step 1):
required fields `patient_id`, `tm2_code`, `condition_name` present and
non-blank, and `diagnosis_date` parseable. -/
def validRecord (r : RawRecord) : Bool :=
  !(pyStrip r.patient_id).isEmpty && !(pyStrip r.tm2_code).isEmpty &&
    !(pyStrip r.condition_name).isEmpty && (parse_date r.diagnosis_date).isSome

/-- Modelled from the spec: the deduplication key (§4.2 step 2):
`(patient_id, tm2_code, diagnosis_date, practitioner_id)`. -/
def dedupKey (r : RawRecord) : String × String × String × String :=
  (r.patient_id, r.tm2_code, r.diagnosis_date, r.practitioner_id)

/-- Modelled from the spec: field normalization of a surviving row (§4.2
step 3): trims whitespace on all string fields and invokes the Term
Normalizer on `condition_name`, `system_type`, `severity`. -/
def normalizeRecord (t : AYUSHTranslator) (r : RawRecord) (d : Date) : CleanedRecord :=
  { patient_id := pyStrip r.patient_id,
    tm2_code := pyStrip r.tm2_code,
    condition_name := (t.translate_condition (pyStrip r.condition_name)).ret,
    system_type := (t.translate_system_type (pyStrip r.system_type)).ret,
    severity := (t.translate_severity (pyStrip r.severity)).ret,
    diagnosis_date := d,
    practitioner_id := pyStrip r.practitioner_id }

/-- Modelled from the spec: the per-record cleaning loop (§4.2): invalid
rows are excluded and tallied, later duplicates of an already-seen
deduplication key are dropped and tallied (first occurrence wins), and
surviving rows are normalized. Returns the cleaned rows together with the
invalid and duplicate counts. -/
def cleanAux (t : AYUSHTranslator) :
    List RawRecord → List (String × String × String × String) →
    List CleanedRecord × Nat × Nat
  | [], _ => ([], 0, 0)
  | r :: rest, seen =>
    match parse_date r.diagnosis_date, validRecord r with
    | some d, true =>
      if seen.contains (dedupKey r) then
        let p := cleanAux t rest seen
        (p.1, p.2.1, p.2.2 + 1)
      else
        let p := cleanAux t rest (dedupKey r :: seen)
        (normalizeRecord t r d :: p.1, p.2.1, p.2.2)
    | _, _ =>
      let p := cleanAux t rest seen
      (p.1, p.2.1 + 1, p.2.2)

/-- Modelled from the spec: the Record Validator and Cleaner contract
`clean` (§4.2), over a given Term Normalizer state. -/
def clean (t : AYUSHTranslator) (records : List RawRecord) :
    List CleanedRecord × CleaningStats :=
  let p := cleanAux t records []
  (p.1, { total_records := records.length,
          invalid_records_removed := p.2.1,
          duplicates_removed := p.2.2 })

/-- Modelled from the spec: deterministic condition identifier derived from
the natural keys (§4.3 step 2 and §9: stable derivation from
`patient_id + tm2_code + diagnosis_date`). -/
def conditionIdFor (c : CleanedRecord) : String :=
  c.patient_id ++ "-" ++ c.tm2_code ++ "-" ++ toString c.diagnosis_date.year ++ "-" ++
    toString c.diagnosis_date.month ++ "-" ++ toString c.diagnosis_date.day

/-- Modelled from the spec: the EMR Graph Builder loop (§4.3): one
`EMRPatient` per first-seen `patient_id`, exactly one `EMRCondition` per
cleaned record. -/
def convertAux : List CleanedRecord → List String → List EMRPatient × List EMRCondition
  | [], _ => ([], [])
  | c :: rest, seenPats =>
    let cond : EMRCondition :=
      { condition_id := conditionIdFor c,
        patient_id := c.patient_id,
        condition_name := c.condition_name,
        tm2_code := c.tm2_code,
        system_type := c.system_type,
        severity := c.severity,
        diagnosis_date := c.diagnosis_date,
        practitioner_id := c.practitioner_id }
    if seenPats.contains c.patient_id then
      let p := convertAux rest seenPats
      (p.1, cond :: p.2)
    else
      let p := convertAux rest (c.patient_id :: seenPats)
      ({ patient_id := c.patient_id } :: p.1, cond :: p.2)

/-- Modelled from the spec: the EMR Graph Builder contract `convert` (§4.3),
restricted to the patient and condition entities the claims exercise. -/
def convertRecords (records : List CleanedRecord) : List EMRPatient × List EMRCondition :=
  convertAux records []

/-- The first row of the specification's end-to-end scenario (§8). -/
def scenarioRow : RawRecord :=
  { patient_id := "PAT001",
    tm2_code := "TM2.A01.01",
    condition_name := "अनिद्रा",
    system_type := "आयुर्वेद",
    severity := "मध्यम",
    diagnosis_date := "2024-01-15",
    practitioner_id := "DOC123" }

/-- The end-to-end scenario batch: the row and a structural duplicate of
it. -/
def scenarioBatch : List RawRecord := [scenarioRow, scenarioRow]

/-- An exact-tier hit determines the result of `translate_condition` and
produces no logged event. -/
theorem translateConditionT_exact (m : List (String × String)) (s v : String)
    (h : s ≠ "") (h2 : lookupExact m (pyStrip s) = some v) :
    translateConditionT m s = (v, []) := by
  simp [translateConditionT, h, h2]

/-- With no exact hit, a case-insensitive hit determines the result of
`translate_condition` and produces no logged event. -/
theorem translateConditionT_ci (m : List (String × String)) (s v : String)
    (h : s ≠ "") (h2 : lookupExact m (pyStrip s) = none)
    (h3 : lookupCI m (pyStrip s) = some v) :
    translateConditionT m s = (v, []) := by
  simp [translateConditionT, h, h2, h3]

/-- With no exact and no case-insensitive hit, a substring-tier hit
determines the result of `translate_condition` and is logged. -/
theorem translateConditionT_fuzzy (m : List (String × String)) (s : String)
    (kv : String × String) (h : s ≠ "") (h2 : lookupExact m (pyStrip s) = none)
    (h3 : lookupCI m (pyStrip s) = none) (h4 : lookupFuzzy m (pyStrip s) = some kv) :
    translateConditionT m s = (kv.2, [LogEvent.fuzzyMatch s kv.1 kv.2]) := by
  simp [translateConditionT, h, h2, h3, h4]

/-- With no tier matching, `translate_condition` returns the original input
and logs the fallback. -/
theorem translateConditionT_none (m : List (String × String)) (s : String)
    (h : s ≠ "") (h2 : lookupExact m (pyStrip s) = none)
    (h3 : lookupCI m (pyStrip s) = none) (h4 : lookupFuzzy m (pyStrip s) = none) :
    translateConditionT m s = (s, [LogEvent.noTranslation s]) := by
  simp [translateConditionT, h, h2, h3, h4]

/-- With no exact hit, a case-insensitive hit determines the result of
`translate_system_type`. -/
theorem translateSystemTypeT_ci (m : List (String × String)) (s v : String)
    (h : s ≠ "") (h2 : lookupExact m (pyStrip s) = none)
    (h3 : lookupCI m (pyStrip s) = some v) :
    translateSystemTypeT m s = (v, []) := by
  simp [translateSystemTypeT, h, h2, h3]

/-- With no exact hit, a case-insensitive hit determines the result of
`translate_severity`. -/
theorem translateSeverityT_ci (m : List (String × String)) (s v : String)
    (h : s ≠ "") (h2 : lookupExact m (pyStrip s) = none)
    (h3 : lookupCI m (pyStrip s) = some v) :
    translateSeverityT m s = (v, []) := by
  simp [translateSeverityT, h, h2, h3]

/-- An exact-tier hit determines the result of `translate_system_type`. -/
theorem translateSystemTypeT_exact (m : List (String × String)) (s v : String)
    (h : s ≠ "") (h2 : lookupExact m (pyStrip s) = some v) :
    translateSystemTypeT m s = (v, []) := by
  simp [translateSystemTypeT, h, h2]

/-- With no exact and no case-insensitive hit, `translate_system_type`
returns the original input unchanged. -/
theorem translateSystemTypeT_none (m : List (String × String)) (s : String)
    (h : s ≠ "") (h2 : lookupExact m (pyStrip s) = none)
    (h3 : lookupCI m (pyStrip s) = none) :
    translateSystemTypeT m s = (s, []) := by
  simp [translateSystemTypeT, h, h2, h3]

/-- An exact-tier hit determines the result of `translate_severity`. -/
theorem translateSeverityT_exact (m : List (String × String)) (s v : String)
    (h : s ≠ "") (h2 : lookupExact m (pyStrip s) = some v) :
    translateSeverityT m s = (v, []) := by
  simp [translateSeverityT, h, h2]

/-- With no exact and no case-insensitive hit, `translate_severity` returns
the original input unchanged. -/
theorem translateSeverityT_none (m : List (String × String)) (s : String)
    (h : s ≠ "") (h2 : lookupExact m (pyStrip s) = none)
    (h3 : lookupCI m (pyStrip s) = none) :
    translateSeverityT m s = (s, []) := by
  simp [translateSeverityT, h, h2, h3]

/-- Dict assignment makes the assigned key immediately visible to exact
lookup. -/
theorem lookupExact_dictInsert_self (m : List (String × String)) (k v : String) :
    lookupExact (dictInsert m k v) k = some v := by
  induction m with
  | nil => simp [dictInsert, lookupExact]
  | cons kv rest ih =>
    by_cases h : kv.1 = k
    · simp [dictInsert, h, lookupExact]
    · simp [dictInsert, h, lookupExact, ih]

/-- Dict assignment leaves the exact lookup of every other key unchanged. -/
theorem lookupExact_dictInsert_other (m : List (String × String)) (k v q : String)
    (h : q ≠ k) : lookupExact (dictInsert m k v) q = lookupExact m q := by
  induction m with
  | nil => simp [dictInsert, lookupExact, Ne.symm h]
  | cons kv rest ih =>
    by_cases hk : kv.1 = k
    · simp [dictInsert, hk, lookupExact, Ne.symm h]
    · simp [dictInsert, hk, lookupExact, ih]

/-- If some table entry's key is contained (case-insensitively) in the
query, the substring-tier scan finds an entry. -/
theorem lookupFuzzy_isSome_of_mem (m : List (String × String)) (s k v : String)
    (hm : (k, v) ∈ m) (hc : pyIn (pyLower k) (pyLower s) = true) :
    (lookupFuzzy m s).isSome := by
  induction m with
  | nil => cases hm
  | cons kv rest ih =>
    by_cases h : (pyIn (pyLower kv.1) (pyLower s) || pyIn (pyLower s) (pyLower kv.1)) = true
    · simp [lookupFuzzy, h]
    · rcases List.mem_cons.mp hm with h1 | h1
      · exact absurd (by simp [← h1, hc]) h
      · simpa [lookupFuzzy, h] using ih h1

/-- `translate_system_type` logs nothing on any input: its body contains no
logging call. -/
theorem translateSystemTypeT_events (m : List (String × String)) (s : String) :
    (translateSystemTypeT m s).2 = [] := by
  by_cases h : s = ""
  · simp [translateSystemTypeT, h]
  · cases hE : lookupExact m (pyStrip s) with
    | some v => simp [translateSystemTypeT_exact m s v h hE]
    | none =>
      cases hC : lookupCI m (pyStrip s) with
      | some v => simp [translateSystemTypeT_ci m s v h hE hC]
      | none => simp [translateSystemTypeT_none m s h hE hC]

/-- `translate_severity` logs nothing on any input: its body contains no
logging call. -/
theorem translateSeverityT_events (m : List (String × String)) (s : String) :
    (translateSeverityT m s).2 = [] := by
  by_cases h : s = ""
  · simp [translateSeverityT, h]
  · cases hE : lookupExact m (pyStrip s) with
    | some v => simp [translateSeverityT_exact m s v h hE]
    | none =>
      cases hC : lookupCI m (pyStrip s) with
      | some v => simp [translateSeverityT_ci m s v h hE hC]
      | none => simp [translateSeverityT_none m s h hE hC]

/-- C1: Condition translation follows the strictly ordered, first-match-wins
tiers — exact match in the condition mapping, case-insensitive exact match,
substring match in either direction, and for no match the original input
returned unchanged. The embedding is a total function, so every input
string yields a result rather than an error. -/
theorem claim1_condition_tiers (t : AYUSHTranslator) (s : String) (h : s ≠ "") :
    (∀ v, lookupExact t.condition_mapping (pyStrip s) = some v →
      (t.translate_condition s).ret = v) ∧
    (lookupExact t.condition_mapping (pyStrip s) = none →
      ∀ v, lookupCI t.condition_mapping (pyStrip s) = some v →
      (t.translate_condition s).ret = v) ∧
    (lookupExact t.condition_mapping (pyStrip s) = none →
      lookupCI t.condition_mapping (pyStrip s) = none →
      ∀ kv, lookupFuzzy t.condition_mapping (pyStrip s) = some kv →
      (t.translate_condition s).ret = kv.2) ∧
    (lookupExact t.condition_mapping (pyStrip s) = none →
      lookupCI t.condition_mapping (pyStrip s) = none →
      lookupFuzzy t.condition_mapping (pyStrip s) = none →
      (t.translate_condition s).ret = s) := by
  refine ⟨?_, ?_, ?_, ?_⟩
  · intro v hv
    simp [AYUSHTranslator.translate_condition, translateConditionT_exact _ _ _ h hv]
  · intro h2 v hv
    simp [AYUSHTranslator.translate_condition, translateConditionT_ci _ _ _ h h2 hv]
  · intro h2 h3 kv hv
    simp [AYUSHTranslator.translate_condition, translateConditionT_fuzzy _ _ _ h h2 h3 hv]
  · intro h2 h3 h4
    simp [AYUSHTranslator.translate_condition, translateConditionT_none _ _ h h2 h3 h4]

/-- Witness for C1 at a concrete exact-tier input. -/
theorem claim1_condition_tiers_witness :
    (translator.translate_condition "ज्वर").ret = "Fever" :=
  (claim1_condition_tiers translator "ज्वर" (by decide)).1 "Fever" (by decide)

/-- C2 counterexample: the whitespace-only input " " does not return the
empty string from any of the three operations: after stripping, the empty
cleaned string is a Python-substring of every key, so `translate_condition`
resolves it through the substring tier to "Headache" (the first table
entry), while `translate_system_type` and `translate_severity` return the
input unchanged. -/
theorem claim2_blank_counterexample :
    (translator.translate_condition " ").ret = "Headache" ∧
    (translator.translate_system_type " ").ret = " " ∧
    (translator.translate_severity " ").ret = " " ∧
    ("Headache" : String) ≠ "" ∧ (" " : String) ≠ "" := by decide

/-- C2 (amended): for the empty input string, each of the three translate
operations returns the empty string, without error; non-empty
whitespace-only input is not special-cased and falls through to the
matching tiers. -/
theorem claim2_empty_returns_empty (t : AYUSHTranslator) :
    (t.translate_condition "").ret = "" ∧
    (t.translate_system_type "").ret = "" ∧
    (t.translate_severity "").ret = "" :=
  ⟨rfl, rfl, rfl⟩

/-- C3: the substring tier applies only to the condition category: a
non-blank input to `translate_system_type` or `translate_severity` with
neither an exact nor a case-insensitive match in the respective table is
returned unchanged, whatever substring relations it has with the table
keys. -/
theorem claim3_no_fuzzy_tier (t : AYUSHTranslator) (s : String)
    (h : pyStrip s ≠ "")
    (h1 : lookupExact t.system_type_mapping (pyStrip s) = none)
    (h2 : lookupCI t.system_type_mapping (pyStrip s) = none)
    (h3 : lookupExact t.severity_mapping (pyStrip s) = none)
    (h4 : lookupCI t.severity_mapping (pyStrip s) = none) :
    (t.translate_system_type s).ret = s ∧ (t.translate_severity s).ret = s := by
  have hs : s ≠ "" := by
    intro e
    exact h (by rw [e]; decide)
  constructor
  · simp [AYUSHTranslator.translate_system_type, translateSystemTypeT_none _ _ hs h1 h2]
  · simp [AYUSHTranslator.translate_severity, translateSeverityT_none _ _ hs h3 h4]

/-- Witness for C3 at a concrete input that contains the known key
"आयुर्वेद" yet is returned unchanged. -/
theorem claim3_no_fuzzy_tier_witness :
    (translator.translate_system_type "आयुर्वेद kendra").ret = "आयुर्वेद kendra" ∧
    (translator.translate_severity "आयुर्वेद kendra").ret = "आयुर्वेद kendra" :=
  claim3_no_fuzzy_tier translator "आयुर्वेद kendra"
    (by decide) (by decide) (by decide) (by decide) (by decide)

/-- C4 counterexample: the claim (every non-blank input with no exact or
case-insensitive match that contains a known key gets that key's mapped
value) fails. "cold fever" is non-blank, has no exact or case-insensitive
match, and contains the registered key "cold" (mapped to "Common Cold"),
yet `translate_condition` returns "Fever" — the value of "fever", the first
matching entry of the substring scan — not "Common Cold". -/
theorem claim4_counterexample :
    pyStrip "cold fever" ≠ "" ∧
    lookupExact translator.condition_mapping (pyStrip "cold fever") = none ∧
    lookupCI translator.condition_mapping (pyStrip "cold fever") = none ∧
    lookupExact translator.condition_mapping "cold" = some "Common Cold" ∧
    pyIn (pyLower "cold") (pyLower (pyStrip "cold fever")) = true ∧
    (translator.translate_condition "cold fever").ret = "Fever" ∧
    ("Fever" : String) ≠ "Common Cold" := by decide

/-- C4 (amended): for a non-blank input with no exact or case-insensitive
match, the substring tier resolves to the value of the first table entry
matching in either direction; whenever some entry's key is contained
(case-insensitively) in the input, that tier does fire, so such an input is
never left untranslated by the scan; in particular, with "headache" →
"Headache" registered, `translate_condition "chronic headache"` resolves to
"Headache". -/
theorem claim4_first_match_fuzzy (t : AYUSHTranslator) (s : String) (h : s ≠ "")
    (h2 : lookupExact t.condition_mapping (pyStrip s) = none)
    (h3 : lookupCI t.condition_mapping (pyStrip s) = none) :
    (∀ kv, lookupFuzzy t.condition_mapping (pyStrip s) = some kv →
      (t.translate_condition s).ret = kv.2) ∧
    (∀ k v, (k, v) ∈ t.condition_mapping →
      pyIn (pyLower k) (pyLower (pyStrip s)) = true →
      (lookupFuzzy t.condition_mapping (pyStrip s)).isSome) ∧
    (translator.translate_condition "chronic headache").ret = "Headache" := by
  refine ⟨?_, ?_, by decide⟩
  · intro kv hv
    simp [AYUSHTranslator.translate_condition, translateConditionT_fuzzy _ _ _ h h2 h3 hv]
  · intro k v hm hc
    exact lookupFuzzy_isSome_of_mem _ _ _ _ hm hc

/-- Witness for C4 at the concrete input "chronic headache". -/
theorem claim4_first_match_fuzzy_witness :
    (translator.translate_condition "chronic headache").ret = "Headache" :=
  (claim4_first_match_fuzzy translator "chronic headache"
    (by decide) (by decide) (by decide)).1 ("headache", "Headache") (by decide)

/-- C5: translation is deterministic with fixed outputs:
`translate_condition "ज्वर"` returns "Fever" on the module-level translator
instance, all three operations return "" on "", and each operation's result
depends only on its input and the corresponding mapping table, so two calls
with the same input and table state agree. -/
theorem claim5_determinism :
    (translator.translate_condition "ज्वर").ret = "Fever" ∧
    ((translator.translate_condition "").ret = "" ∧
     (translator.translate_system_type "").ret = "" ∧
     (translator.translate_severity "").ret = "") ∧
    (∀ t1 t2 : AYUSHTranslator, ∀ s : String,
      (t1.condition_mapping = t2.condition_mapping →
        (t1.translate_condition s).ret = (t2.translate_condition s).ret) ∧
      (t1.system_type_mapping = t2.system_type_mapping →
        (t1.translate_system_type s).ret = (t2.translate_system_type s).ret) ∧
      (t1.severity_mapping = t2.severity_mapping →
        (t1.translate_severity s).ret = (t2.translate_severity s).ret)) := by
  refine ⟨by decide, ⟨rfl, rfl, rfl⟩, ?_⟩
  intro t1 t2 s
  refine ⟨fun h => ?_, fun h => ?_, fun h => ?_⟩ <;>
    simp [AYUSHTranslator.translate_condition, AYUSHTranslator.translate_system_type,
      AYUSHTranslator.translate_severity, h]

/-- Witness for C5: two translator values agreeing on the condition table
(but differing elsewhere) translate "ज्वर" identically. -/
theorem claim5_determinism_witness :
    (translator.translate_condition "ज्वर").ret =
      (({ translator with severity_mapping := [] } : AYUSHTranslator).translate_condition
        "ज्वर").ret :=
  (claim5_determinism.2.2 translator { translator with severity_mapping := [] } "ज्वर").1 rfl

/-- C6: registering a mapping (a) leaves the exact-lookup of every other key
and the other two tables unchanged, and (b) is immediately visible: an
immediately subsequent translation of the registered native term (equal to
its trimmed form, non-blank) returns the registered English term through
the exact-match tier; analogously for system-type and severity
registrations. -/
theorem claim6_add_mapping (t : AYUSHTranslator) (n e : String)
    (hn : pyStrip n = n) (hne : n ≠ "") :
    (∀ q, q ≠ n →
      lookupExact (t.add_condition_mapping n e).1.condition_mapping q =
        lookupExact t.condition_mapping q) ∧
    (t.add_condition_mapping n e).1.system_type_mapping = t.system_type_mapping ∧
    (t.add_condition_mapping n e).1.severity_mapping = t.severity_mapping ∧
    lookupExact (t.add_condition_mapping n e).1.condition_mapping n = some e ∧
    ((t.add_condition_mapping n e).1.translate_condition n).ret = e ∧
    (∀ q, q ≠ n →
      lookupExact (t.add_system_type_mapping n e).1.system_type_mapping q =
        lookupExact t.system_type_mapping q) ∧
    ((t.add_system_type_mapping n e).1.translate_system_type n).ret = e ∧
    (∀ q, q ≠ n →
      lookupExact (t.add_severity_mapping n e).1.severity_mapping q =
        lookupExact t.severity_mapping q) ∧
    ((t.add_severity_mapping n e).1.translate_severity n).ret = e := by
  have hcond : lookupExact (dictInsert t.condition_mapping n e) (pyStrip n) = some e := by
    rw [hn]; exact lookupExact_dictInsert_self _ _ _
  have hsys : lookupExact (dictInsert t.system_type_mapping n e) (pyStrip n) = some e := by
    rw [hn]; exact lookupExact_dictInsert_self _ _ _
  have hsev : lookupExact (dictInsert t.severity_mapping n e) (pyStrip n) = some e := by
    rw [hn]; exact lookupExact_dictInsert_self _ _ _
  refine ⟨?_, rfl, rfl, ?_, ?_, ?_, ?_, ?_, ?_⟩
  · intro q hq
    exact lookupExact_dictInsert_other _ _ _ _ hq
  · simpa [AYUSHTranslator.add_condition_mapping, hn] using hcond
  · simp [AYUSHTranslator.translate_condition, AYUSHTranslator.add_condition_mapping,
      translateConditionT_exact _ _ _ hne hcond]
  · intro q hq
    exact lookupExact_dictInsert_other _ _ _ _ hq
  · simp [AYUSHTranslator.translate_system_type, AYUSHTranslator.add_system_type_mapping,
      translateSystemTypeT_exact _ _ _ hne hsys]
  · intro q hq
    exact lookupExact_dictInsert_other _ _ _ _ hq
  · simp [AYUSHTranslator.translate_severity, AYUSHTranslator.add_severity_mapping,
      translateSeverityT_exact _ _ _ hne hsev]

/-- Witness for C6 at a concrete registration on the module-level
translator. -/
theorem claim6_add_mapping_witness :
    ((translator.add_condition_mapping "pittaroga" "Pitta Disorder").1.translate_condition
      "pittaroga").ret = "Pitta Disorder" :=
  (claim6_add_mapping translator "pittaroga" "Pitta Disorder"
    (by decide) (by decide)).2.2.2.2.1

/-- C7 counterexample: the call on "FEVER" is resolved by the
case-insensitive tier — not the top-tier exact match — yet records no
event: the source logs only substring matches and no-match fallbacks. -/
theorem claim7_counterexample :
    lookupExact translator.condition_mapping (pyStrip "FEVER") = none ∧
    (translator.translate_condition "FEVER").ret = "Fever" ∧
    (translator.translate_condition "FEVER").events = [] := by decide

/-- C7 (amended): only `translate_condition` records events, and only for
the substring tier (one partial-match event) and the no-match fallback (one
no-translation event); top-tier exact hits, case-insensitive hits and the
empty-input no-op record nothing, and `translate_system_type` and
`translate_severity` never record. -/
theorem claim7_logging_tiers (t : AYUSHTranslator) (s : String) :
    (t.translate_system_type s).events = [] ∧
    (t.translate_severity s).events = [] ∧
    (s = "" → (t.translate_condition s).events = []) ∧
    (s ≠ "" → ∀ v, lookupExact t.condition_mapping (pyStrip s) = some v →
      (t.translate_condition s).events = []) ∧
    (s ≠ "" → lookupExact t.condition_mapping (pyStrip s) = none →
      ∀ v, lookupCI t.condition_mapping (pyStrip s) = some v →
      (t.translate_condition s).events = []) ∧
    (s ≠ "" → lookupExact t.condition_mapping (pyStrip s) = none →
      lookupCI t.condition_mapping (pyStrip s) = none →
      ∀ kv, lookupFuzzy t.condition_mapping (pyStrip s) = some kv →
      (t.translate_condition s).events = [LogEvent.fuzzyMatch s kv.1 kv.2]) ∧
    (s ≠ "" → lookupExact t.condition_mapping (pyStrip s) = none →
      lookupCI t.condition_mapping (pyStrip s) = none →
      lookupFuzzy t.condition_mapping (pyStrip s) = none →
      (t.translate_condition s).events = [LogEvent.noTranslation s]) := by
  refine ⟨?_, ?_, ?_, ?_, ?_, ?_, ?_⟩
  · simpa [AYUSHTranslator.translate_system_type] using
      translateSystemTypeT_events t.system_type_mapping s
  · simpa [AYUSHTranslator.translate_severity] using
      translateSeverityT_events t.severity_mapping s
  · intro h
    simp [AYUSHTranslator.translate_condition, translateConditionT, h]
  · intro h v hv
    simp [AYUSHTranslator.translate_condition, translateConditionT_exact _ _ _ h hv]
  · intro h h2 v hv
    simp [AYUSHTranslator.translate_condition, translateConditionT_ci _ _ _ h h2 hv]
  · intro h h2 h3 kv hv
    simp [AYUSHTranslator.translate_condition, translateConditionT_fuzzy _ _ _ h h2 h3 hv]
  · intro h h2 h3 h4
    simp [AYUSHTranslator.translate_condition, translateConditionT_none _ _ h h2 h3 h4]

/-- Witness for C7: a substring-tier call records exactly its partial-match
event. -/
theorem claim7_logging_tiers_witness :
    (translator.translate_condition "chronic fever").events =
      [LogEvent.fuzzyMatch "chronic fever" "fever" "Fever"] :=
  (claim7_logging_tiers translator "chronic fever").2.2.2.2.2.1
    (by decide) (by decide) (by decide) ("fever", "Fever") (by decide)

/-- C8: the end-to-end scenario — the PAT001 row and a structural duplicate
of it — cleans to a single surviving record with one duplicate removed and
none invalid, converts to exactly one patient and one condition carrying
the translated fields, and the three term translations take the stated
values on the module-level translator. -/
theorem claim8_end_to_end :
    (clean translator scenarioBatch).2.duplicates_removed = 1 ∧
    (clean translator scenarioBatch).2.invalid_records_removed = 0 ∧
    ((convertRecords (clean translator scenarioBatch).1).1.map
      (fun p => p.patient_id)) = ["PAT001"] ∧
    ((convertRecords (clean translator scenarioBatch).1).2.map
      (fun c => (c.condition_name, c.system_type, c.severity))) =
      [("Insomnia", "Ayurveda", "Moderate")] ∧
    (translator.translate_condition "अनिद्रा").ret = "Insomnia" ∧
    (translator.translate_system_type "आयुर्वेद").ret = "Ayurveda" ∧
    (translator.translate_severity "मध्यम").ret = "Moderate" := by decide

/-- C9: an `EMRCondition` constructed without an explicit status has status
"active", and an `EMREncounter` constructed without an explicit encounter
type has encounter_type "traditional_medicine_consultation". -/
theorem claim9_defaults (cid pid cname code stype sev prac eid : String) (d : Date) :
    (EMRCondition.status
      { condition_id := cid, patient_id := pid, condition_name := cname,
        tm2_code := code, system_type := stype, severity := sev,
        diagnosis_date := d, practitioner_id := prac }) = "active" ∧
    (EMREncounter.encounter_type
      { encounter_id := eid, patient_id := pid, encounter_date := d,
        practitioner_id := prac }) = "traditional_medicine_consultation" :=
  ⟨rfl, rfl⟩

/-- C10: the three translate operations are read-only with respect to
translator state: after any call, all three mapping tables — and indeed the
whole translator state — are exactly as before. -/
theorem claim10_translate_pure (t : AYUSHTranslator) (s : String) :
    (t.translate_condition s).state.condition_mapping = t.condition_mapping ∧
    (t.translate_condition s).state.system_type_mapping = t.system_type_mapping ∧
    (t.translate_condition s).state.severity_mapping = t.severity_mapping ∧
    (t.translate_condition s).state = t ∧
    (t.translate_system_type s).state = t ∧
    (t.translate_severity s).state = t :=
  ⟨rfl, rfl, rfl, rfl, rfl, rfl⟩
